import Mathlib

/-! Shallow embedding of the Snowflake SQL REST API client
(snowflake_sql_api.py): token manager, statement executor, result
normalizer. Wall-clock times and JSON numbers are modelled as rationals;
Python exceptions are modelled as an error type in Except. -/

/-- JSON values as delivered by response.json(). Numbers are rationals. -/
inductive Json where
  | null
  | str (s : String)
  | num (q : ℚ)
  | bool (b : Bool)
  | arr (xs : List Json)
  | obj (fields : List (String × Json))

/-- Python exceptions the client can raise, one constructor per raise site
or builtin exception kind. -/
inductive PyError where
  | keyError (k : String)
  | typeError
  | attributeError
  | authError (status : Nat)
  | execError (status : Nat)
  | pollStatusError (status : Nat)
  | timeoutError
  | modelFuel
  deriving DecidableEq, Repr

/-- First-match lookup in a JSON object field list, as Python d.get(k). -/
def dictGet (d : List (String × Json)) (k : String) : Option Json :=
  (d.find? (fun p => p.1 == k)).map (fun p => p.2)

/-- Python subscript j[k]: KeyError when the key is missing from a dict,
TypeError when the value is not a dict (e.g. a string element). -/
def pyIndex (j : Json) (k : String) : Except PyError Json :=
  match j with
  | Json.obj fs =>
    match dictGet fs k with
    | some v => Except.ok v
    | none => Except.error (PyError.keyError k)
  | _ => Except.error PyError.typeError

/-- Python iteration over a JSON value: a list yields its elements, a
string yields its one-character substrings, a dict yields its keys,
anything else raises TypeError. -/
def iterElems : Json → Except PyError (List Json)
  | Json.arr xs => Except.ok xs
  | Json.str s => Except.ok (s.data.map (fun c => Json.str (String.mk [c])))
  | Json.obj fs => Except.ok (fs.map (fun p => Json.str p.1))
  | _ => Except.error PyError.typeError

/-- One normalized column descriptor, as built by _format_result. -/
structure Column where
  name : Json
  type : Json
  nullable : Json

/-- The normalized result dictionary built by _format_result. -/
structure FormattedResult where
  statement_handle : Json
  success : Bool
  row_count : Json
  columns : List Column
  data : Json
  message : Option Json
  code : Option Json

/-- Python j.get(k, d) on a dict value. The non-dict branch returns the
default; at the one call site (a descriptor whose raising subscripts
already succeeded) the receiver is always a dict. -/
def pyGet (j : Json) (k : String) (d : Json) : Json :=
  match j with
  | Json.obj fs => (dictGet fs k).getD d
  | _ => d

/-- One step of the column comprehension: name and type via raising
subscript, nullable via .get with default True. -/
def colDescriptor (col : Json) : Except PyError Column :=
  match pyIndex col "name" with
  | Except.error e => Except.error e
  | Except.ok n =>
    match pyIndex col "type" with
    | Except.error e => Except.error e
    | Except.ok t =>
      Except.ok { name := n, type := t
                  nullable := pyGet col "nullable" (Json.bool true) }

/-- The column list comprehension over the row-type elements, stopping at
the first raised exception. -/
def colsOf : List Json → Except PyError (List Column)
  | [] => Except.ok []
  | col :: rest =>
    match colDescriptor col with
    | Except.error e => Except.error e
    | Except.ok c =>
      match colsOf rest with
      | Except.error e => Except.error e
      | Except.ok cs => Except.ok (c :: cs)

/-- The initial formatted dictionary of _format_result before the
result-set block runs: handle via .get (None when absent), success is
the presence of resultSetMetaData, defaults for the rest, and message
and code copied through when present. -/
def baseResult (result : List (String × Json)) : FormattedResult :=
  { statement_handle := (dictGet result "statementHandle").getD Json.null
    success := (dictGet result "resultSetMetaData").isSome
    row_count := Json.num 0
    columns := []
    data := Json.arr []
    message := dictGet result "message"
    code := dictGet result "code" }

/-- The column list built from the rowType value: iterate it (raising on
non-iterables) and run the descriptor comprehension. -/
def colsFromRowType (rt : Json) : Except PyError (List Column) :=
  match iterElems rt with
  | Except.error e => Except.error e
  | Except.ok elems => colsOf elems

/-- _format_result: maps the raw API response dict into the fixed-shape
record. Raises exactly where the Python raises: subscripting a row-type
descriptor that lacks name or type, iterating a non-iterable rowType
value, or calling .get on a non-dict resultSetMetaData value. -/
def formatResult (result : List (String × Json)) : Except PyError FormattedResult :=
  match dictGet result "resultSetMetaData" with
  | none => Except.ok (baseResult result)
  | some metadata =>
    match metadata with
    | Json.obj mfs =>
      match (match dictGet mfs "rowType" with
        | none => Except.ok []
        | some rt => colsFromRowType rt) with
      | Except.error e => Except.error e
      | Except.ok cols =>
        Except.ok { baseResult result with
          row_count := (dictGet mfs "numRows").getD (Json.num 0)
          columns := cols
          data := (dictGet result "data").getD (Json.arr []) }
    | _ => Except.error PyError.attributeError

/-- A row-type descriptor on which the comprehension cannot raise: a dict
containing both name and type keys. -/
def goodCol (col : Json) : Bool :=
  match col with
  | Json.obj fs => (dictGet fs "name").isSome && (dictGet fs "type").isSome
  | _ => false

/-- An envelope on which _format_result cannot raise: when
resultSetMetaData is present it is a dict, and its rowType, when present,
is a list of well-formed descriptors. -/
def goodEnvelope (result : List (String × Json)) : Bool :=
  match dictGet result "resultSetMetaData" with
  | none => true
  | some (Json.obj mfs) =>
    match dictGet mfs "rowType" with
    | none => true
    | some (Json.arr cols) => cols.all goodCol
    | some _ => false
  | some _ => false

/-- Python truthiness of the JSON value cached in self._access_token. -/
def Json.truthy : Json → Bool
  | Json.null => false
  | Json.str s => s ≠ ""
  | Json.num q => q ≠ 0
  | Json.bool b => b
  | Json.arr xs => !xs.isEmpty
  | Json.obj fs => !fs.isEmpty

/-- The mutable credential cache of a client instance: _access_token
(None before the first refresh) and _token_expires_at (0.0 initially). -/
structure TokenState where
  access_token : Option Json
  token_expires_at : ℚ

/-- Truthiness of self._access_token: None is falsy, otherwise Python
truthiness of the stored value. -/
def tokenTruthy : Option Json → Bool
  | none => false
  | some j => j.truthy

/-- Environment of one token-endpoint POST: HTTP status, response JSON
body, and the wall-clock reading taken when the expiry is computed. -/
structure RefreshEnv where
  status : Nat
  body : List (String × Json)
  refreshTime : ℚ

/-- Python expires_in * 0.9: numbers and booleans multiply, every other
JSON value raises TypeError. -/
def slackOf : Json → Except PyError ℚ
  | Json.num q => Except.ok (q * (9 / 10))
  | Json.bool b => Except.ok ((if b then 1 else 0) * (9 / 10))
  | _ => Except.error PyError.typeError

/-- _get_access_token. Returns the number of token-endpoint POSTs
performed (0 when the cache is hit, 1 otherwise) together with either the
token value returned and the updated cache, or the raised error. The
cached value is returned when it is truthy and now is strictly before
_token_expires_at; otherwise one refresh-token exchange runs: non-200
raises, then access_token is read by raising subscript, expires_in
defaults to 600, and the new expiry is the refresh-time reading plus 0.9
of expires_in. -/
def getAccessToken (st : TokenState) (now : ℚ) (env : RefreshEnv) :
    Nat × Except PyError (Json × TokenState) :=
  if tokenTruthy st.access_token && decide (now < st.token_expires_at) then
    (0, Except.ok ((st.access_token).getD Json.null, st))
  else
    (1,
      if env.status ≠ 200 then Except.error (PyError.authError env.status)
      else
        match dictGet env.body "access_token" with
        | none => Except.error (PyError.keyError "access_token")
        | some tok =>
          match slackOf ((dictGet env.body "expires_in").getD (Json.num 600)) with
          | Except.error e => Except.error e
          | Except.ok slack =>
            Except.ok (tok, { access_token := some tok
                              token_expires_at := env.refreshTime + slack }))

/-- One iteration environment of the poll loop: the wall-clock reading at
the loop condition (the status GET, if issued, follows immediately at
that instant) and the response to that GET. -/
structure PollStep where
  checkTime : ℚ
  status : Nat
  body : List (String × Json)

/-- The terminal-state test of the poll loop: the response contains
resultSetMetaData or message. -/
def isTerminal (body : List (String × Json)) : Bool :=
  (dictGet body "resultSetMetaData").isSome || (dictGet body "message").isSome

/-- The while loop of _poll_statement. Arguments: the bearer token placed
in the Authorization header of every GET, start_time, timeout, and the
trace of loop iterations the environment provides. Returns the outcome
and the list of issued status fetches as (instant, bearer token) pairs.
The loop runs while checkTime - startTime < timeout; a non-200 status
raises, a terminal body returns, otherwise it sleeps and continues. An
exhausted finite trace is flagged as modelFuel (the real loop would keep
polling). -/
def pollLoop (tok : Json) (startTime timeoutv : ℚ) :
    List PollStep → Except PyError (List (String × Json)) × List (ℚ × Json)
  | [] => (Except.error PyError.modelFuel, [])
  | s :: rest =>
    if s.checkTime - startTime < timeoutv then
      if s.status ≠ 200 then
        (Except.error (PyError.pollStatusError s.status), [(s.checkTime, tok)])
      else if isTerminal s.body then
        (Except.ok s.body, [(s.checkTime, tok)])
      else
        ((pollLoop tok startTime timeoutv rest).1,
          (s.checkTime, tok) :: (pollLoop tok startTime timeoutv rest).2)
    else (Except.error PyError.timeoutError, [])

/-- Observable behaviour of one _poll_statement call. -/
structure PollResult where
  tokenLookups : Nat
  tokenRefreshes : Nat
  handle : Json
  fetches : List (ℚ × Json)
  outcome : Except PyError (List (String × Json))

/-- _poll_statement: one _get_access_token call before the loop (now and
env are its inputs), then the loop polls the status URL keyed by the
handle with start_time = startTime. -/
def pollStatement (st : TokenState) (now : ℚ) (env : RefreshEnv) (handle : Json)
    (startTime timeoutv : ℚ) (steps : List PollStep) : PollResult :=
  match (getAccessToken st now env).2 with
  | Except.error e =>
    { tokenLookups := 1, tokenRefreshes := (getAccessToken st now env).1
      handle := handle, fetches := [], outcome := Except.error e }
  | Except.ok (tok, _st1) =>
    { tokenLookups := 1, tokenRefreshes := (getAccessToken st now env).1
      handle := handle, fetches := (pollLoop tok startTime timeoutv steps).2
      outcome := (pollLoop tok startTime timeoutv steps).1 }

/-- Python a-or-b for an optional override string against the instance
default: the override wins when truthy (non-None and nonempty). -/
def strOr (a : Option String) (b : String) : String :=
  match a with
  | some s => if s = "" then b else s
  | none => b

/-- Truthiness of an Optional[str] argument. -/
def optTruthy : Option String → Bool
  | some s => s ≠ ""
  | none => false

/-- A conditional payload entry: present exactly when the Python if-guard
is truthy. -/
def optEntry (k : String) (cond : Bool) (v : Json) : List (String × Json) :=
  if cond then [(k, v)] else []

/-- The JSON payload built by execute: statement and timeout always,
database/schema (override or instance default, when truthy), warehouse,
role, and bindings when the bindings dict is truthy (nonempty). -/
def executePayload (sql : String) (timeoutv : ℚ)
    (database schema warehouse role : Option String)
    (bindings : Option (List (String × Json)))
    (instDatabase instSchema : String) : List (String × Json) :=
  [("statement", Json.str sql), ("timeout", Json.num timeoutv)]
  ++ optEntry "database" (strOr database instDatabase ≠ "")
       (Json.str (strOr database instDatabase))
  ++ optEntry "schema" (strOr schema instSchema ≠ "")
       (Json.str (strOr schema instSchema))
  ++ optEntry "warehouse" (optTruthy warehouse) (Json.str (warehouse.getD ""))
  ++ optEntry "role" (optTruthy role) (Json.str (role.getD ""))
  ++ optEntry "bindings"
       (match bindings with | some b => !b.isEmpty | none => false)
       (Json.obj (bindings.getD []))

/-- The JSON payload built by execute_async: statement, timeout fixed to
0 and the async flag, then database/schema/warehouse/role from kwargs.
The bindings argument can arrive through kwargs but is never written into
the payload. -/
def executeAsyncPayload (sql : String)
    (database schema warehouse role : Option String)
    (bindings : Option (List (String × Json)))
    (instDatabase instSchema : String) : List (String × Json) :=
  [("statement", Json.str sql), ("timeout", Json.num 0),
   ("async", Json.bool true)]
  ++ optEntry "database" (strOr database instDatabase ≠ "")
       (Json.str (strOr database instDatabase))
  ++ optEntry "schema" (strOr schema instSchema ≠ "")
       (Json.str (strOr schema instSchema))
  ++ optEntry "warehouse" (optTruthy warehouse) (Json.str (warehouse.getD ""))
  ++ optEntry "role" (optTruthy role) (Json.str (role.getD ""))

/-- Environment of one execute call: inputs of the token lookup made by
execute, the wall-clock instant the submission POST is issued (ambient
physical time, never read by the client), the submission response, the
inputs of the token lookup made inside _poll_statement, the time.time()
reading taken for start_time, and the poll-loop trace. -/
structure ExecEnv where
  tokenNow : ℚ
  tokenEnv : RefreshEnv
  submitTime : ℚ
  submitStatus : Nat
  submitBody : List (String × Json)
  pollTokenNow : ℚ
  pollTokenEnv : RefreshEnv
  pollStart : ℚ
  pollSteps : List PollStep

/-- Observable behaviour of one execute call. -/
structure ExecResult where
  submissions : Nat
  payload : Option (List (String × Json))
  pollEntered : Bool
  poll : Option PollResult
  outcome : Except PyError FormattedResult

/-- execute: one _get_access_token call, payload build, one submission
POST; non-(200|202) raises at once with no retry; 202 reads
statementHandle by raising subscript and polls; the terminal body (from a
200 directly or from polling) goes through _format_result. -/
def execute (st : TokenState) (sql : String) (timeoutv : ℚ)
    (database schema warehouse role : Option String)
    (bindings : Option (List (String × Json)))
    (instDatabase instSchema : String) (env : ExecEnv) : ExecResult :=
  match (getAccessToken st env.tokenNow env.tokenEnv).2 with
  | Except.error e =>
    { submissions := 0, payload := none, pollEntered := false, poll := none
      outcome := Except.error e }
  | Except.ok (_tok, st1) =>
    if env.submitStatus ≠ 200 && env.submitStatus ≠ 202 then
      { submissions := 1
        payload := some (executePayload sql timeoutv database schema warehouse role
          bindings instDatabase instSchema)
        pollEntered := false
        poll := none, outcome := Except.error (PyError.execError env.submitStatus) }
    else if env.submitStatus = 202 then
      match dictGet env.submitBody "statementHandle" with
      | none =>
        { submissions := 1
          payload := some (executePayload sql timeoutv database schema warehouse role
            bindings instDatabase instSchema)
          pollEntered := false
          poll := none, outcome := Except.error (PyError.keyError "statementHandle") }
      | some h =>
        match (pollStatement st1 env.pollTokenNow env.pollTokenEnv h
          env.pollStart timeoutv env.pollSteps).outcome with
        | Except.error e =>
          { submissions := 1
            payload := some (executePayload sql timeoutv database schema warehouse role
              bindings instDatabase instSchema)
            pollEntered := true
            poll := some (pollStatement st1 env.pollTokenNow env.pollTokenEnv h
              env.pollStart timeoutv env.pollSteps)
            outcome := Except.error e }
        | Except.ok body =>
          { submissions := 1
            payload := some (executePayload sql timeoutv database schema warehouse role
              bindings instDatabase instSchema)
            pollEntered := true
            poll := some (pollStatement st1 env.pollTokenNow env.pollTokenEnv h
              env.pollStart timeoutv env.pollSteps)
            outcome := formatResult body }
    else
      { submissions := 1
        payload := some (executePayload sql timeoutv database schema warehouse role
          bindings instDatabase instSchema)
        pollEntered := false
        poll := none, outcome := formatResult env.submitBody }

theorem colsOf_ok_of_all_good (cols : List Json) (h : cols.all goodCol = true) :
    ∃ cs, colsOf cols = Except.ok cs := by
  induction cols with
  | nil => exact ⟨[], rfl⟩
  | cons col rest ih =>
    rw [List.all_cons, Bool.and_eq_true] at h
    obtain ⟨hc, hrest⟩ := h
    obtain ⟨cs, hcs⟩ := ih hrest
    match col, hc with
    | Json.obj fs, hc =>
      rw [goodCol, Bool.and_eq_true, Option.isSome_iff_exists, Option.isSome_iff_exists] at hc
      obtain ⟨⟨n, hn⟩, t, ht⟩ := hc
      refine ⟨⟨n, t, pyGet (Json.obj fs) "nullable" (Json.bool true)⟩ :: cs, ?_⟩
      simp only [colsOf, colDescriptor, pyIndex, hn, ht, hcs]

/-- C1 counterexample: the envelope whose single row-type descriptor has
neither name nor type makes _format_result raise KeyError instead of
degrading to a default, so the normalizer is not total on raw envelopes. -/
theorem formatResult_raises_on_nameless_descriptor :
    formatResult [("resultSetMetaData",
      Json.obj [("rowType", Json.arr [Json.obj []])])]
    = Except.error (PyError.keyError "name") := rfl

/-- C1 (amended): _format_result returns a normalized result without
raising on every envelope whose resultSetMetaData value, when present, is
an object and whose rowType value, when present, is a list of descriptors
each carrying name and type; only those descriptor and shape violations
raise, all other missing fields degrade to defaults. -/
theorem formatResult_total_on_good_envelopes (result : List (String × Json))
    (h : goodEnvelope result = true) : ∃ v, formatResult result = Except.ok v := by
  unfold goodEnvelope at h
  unfold formatResult
  cases hm : dictGet result "resultSetMetaData" with
  | none => exact ⟨_, rfl⟩
  | some metadata =>
    rw [hm] at h
    cases metadata with
    | obj mfs =>
      have h2 : (match dictGet mfs "rowType" with
        | none => true
        | some (Json.arr cols) => cols.all goodCol
        | some _ => false) = true := h
      cases hr : dictGet mfs "rowType" with
      | none => simp [hr]
      | some rt =>
        rw [hr] at h2
        cases rt with
        | arr cols =>
          have h3 : cols.all goodCol = true := h2
          obtain ⟨cs, hcs⟩ := colsOf_ok_of_all_good cols h3
          simp [hr, colsFromRowType, iterElems, hcs]
        | null => exact Bool.noConfusion h2
        | str s => exact Bool.noConfusion h2
        | num q => exact Bool.noConfusion h2
        | bool b => exact Bool.noConfusion h2
        | obj fs2 => exact Bool.noConfusion h2
    | null => exact Bool.noConfusion h
    | str s => exact Bool.noConfusion h
    | num q => exact Bool.noConfusion h
    | bool b => exact Bool.noConfusion h
    | arr xs => exact Bool.noConfusion h

/-- C1 witness: a concrete good envelope on which the normalizer
succeeds. -/
theorem formatResult_total_on_good_envelopes_witness :
    goodEnvelope [("resultSetMetaData", Json.obj
      [("rowType", Json.arr [Json.obj [("name", Json.null), ("type", Json.null)]])])] = true ∧
    ∃ v, formatResult [("resultSetMetaData", Json.obj
      [("rowType", Json.arr [Json.obj [("name", Json.null), ("type", Json.null)]])])]
      = Except.ok v :=
  ⟨rfl, formatResult_total_on_good_envelopes _ rfl⟩

/-- C7: normalizing the envelope with one TEXT column named A, numRows 2
and rows x and null yields success, the single column with nullable
defaulted to true, row count 2, and the data rows verbatim with the null
marker intact. -/
theorem formatResult_roundtrip :
    formatResult [("resultSetMetaData", Json.obj
        [("rowType", Json.arr [Json.obj [("name", Json.str "A"), ("type", Json.str "TEXT")]]),
         ("numRows", Json.num 2)]),
      ("data", Json.arr [Json.arr [Json.str "x"], Json.arr [Json.null]])]
    = Except.ok
      { statement_handle := Json.null
        success := true
        row_count := Json.num 2
        columns := [{ name := Json.str "A", type := Json.str "TEXT"
                      nullable := Json.bool true }]
        data := Json.arr [Json.arr [Json.str "x"], Json.arr [Json.null]]
        message := none
        code := none } := rfl

/-- C8: an envelope holding only message and code normalizes to a failure
record with both values copied through unmodified. -/
theorem formatResult_error_passthrough (m c : Json) :
    formatResult [("message", m), ("code", c)]
    = Except.ok
      { statement_handle := Json.null
        success := false
        row_count := Json.num 0
        columns := []
        data := Json.arr []
        message := some m
        code := some c } := rfl

/-- C4: with a truthy cached token, a call strictly before the cached
expiry returns the cached token, leaves the cache unchanged and performs
no network refresh; a call at or past the expiry performs exactly one
refresh-token exchange. -/
theorem getAccessToken_cache_policy (st : TokenState) (now : ℚ) (env : RefreshEnv)
    (htok : tokenTruthy st.access_token = true) :
    (now < st.token_expires_at →
      getAccessToken st now env = (0, Except.ok ((st.access_token).getD Json.null, st))) ∧
    (st.token_expires_at ≤ now → (getAccessToken st now env).1 = 1) := by
  constructor
  · intro hlt
    rw [getAccessToken, if_pos]
    rw [htok, Bool.true_and, decide_eq_true_eq]
    exact hlt
  · intro hge
    rw [getAccessToken, if_neg]
    rw [htok, Bool.true_and, decide_eq_true_eq]
    exact not_lt.mpr hge

/-- C4 witness: a concrete cache hit and a concrete expiry-driven
refresh. -/
theorem getAccessToken_cache_policy_witness :
    tokenTruthy (TokenState.mk (some (Json.str "t0")) 100).access_token = true ∧
    (((7 : ℚ) < (TokenState.mk (some (Json.str "t0")) 100).token_expires_at →
      getAccessToken (TokenState.mk (some (Json.str "t0")) 100) 7 (RefreshEnv.mk 200 [] 0)
        = (0, Except.ok (((TokenState.mk (some (Json.str "t0")) 100).access_token).getD Json.null,
            TokenState.mk (some (Json.str "t0")) 100))) ∧
    ((TokenState.mk (some (Json.str "t0")) 100).token_expires_at ≤ (7 : ℚ) →
      (getAccessToken (TokenState.mk (some (Json.str "t0")) 100) 7 (RefreshEnv.mk 200 [] 0)).1 = 1)) :=
  ⟨rfl, getAccessToken_cache_policy (TokenState.mk (some (Json.str "t0")) 100) 7
    (RefreshEnv.mk 200 [] 0) rfl⟩

/-- C5: whenever a call refreshed the token and returned successfully,
the new cached expiry is the refresh-time reading plus 0.9 of the
reported expires_in, with expires_in defaulting to 600 (so an absent
field yields refresh time plus 540). -/
theorem getAccessToken_expiry_slack (st : TokenState) (now : ℚ) (env : RefreshEnv)
    (tok : Json) (st1 : TokenState)
    (h : getAccessToken st now env = (1, Except.ok (tok, st1))) :
    (∀ q : ℚ, dictGet env.body "expires_in" = some (Json.num q) →
      st1.token_expires_at = env.refreshTime + q * (9 / 10)) ∧
    (dictGet env.body "expires_in" = none →
      st1.token_expires_at = env.refreshTime + 540) := by
  rw [getAccessToken] at h
  split at h
  · exact absurd (congrArg Prod.fst h) (by simp)
  · rw [Prod.mk.injEq] at h
    obtain ⟨-, h⟩ := h
    split at h
    · exact absurd h (by simp)
    · split at h
      · exact absurd h (by simp)
      · constructor
        · intro q hq
          rw [hq] at h
          simp only [Option.getD_some, slackOf, Except.ok.injEq, Prod.mk.injEq] at h
          obtain ⟨-, h2⟩ := h
          rw [← h2]
        · intro hq
          rw [hq] at h
          simp only [Option.getD_none, slackOf, Except.ok.injEq, Prod.mk.injEq] at h
          obtain ⟨-, h2⟩ := h
          rw [← h2]
          norm_num

/-- C5 witness: a concrete refresh reporting expires_in 600 at refresh
time 50 caches expiry 590 = 50 + 540. -/
theorem getAccessToken_expiry_slack_witness :
    getAccessToken (TokenState.mk none 0) 7
        (RefreshEnv.mk 200 [("access_token", Json.str "t1"), ("expires_in", Json.num 600)] 50)
      = (1, Except.ok (Json.str "t1", TokenState.mk (some (Json.str "t1")) 590)) ∧
    ((∀ q : ℚ, dictGet [("access_token", Json.str "t1"), ("expires_in", Json.num 600)] "expires_in"
        = some (Json.num q) →
      (TokenState.mk (some (Json.str "t1")) 590).token_expires_at = 50 + q * (9 / 10)) ∧
    (dictGet [("access_token", Json.str "t1"), ("expires_in", Json.num 600)] "expires_in" = none →
      (TokenState.mk (some (Json.str "t1")) 590).token_expires_at = 50 + 540)) := by
  have hrun : getAccessToken (TokenState.mk none 0) 7
      (RefreshEnv.mk 200 [("access_token", Json.str "t1"), ("expires_in", Json.num 600)] 50)
      = (1, Except.ok (Json.str "t1", TokenState.mk (some (Json.str "t1")) 590)) := by
    simp [getAccessToken, tokenTruthy, dictGet, slackOf]
    norm_num
  exact ⟨hrun, getAccessToken_expiry_slack _ _ _ _ _ hrun⟩

/-- Poll trace of three iterations: two pending responses, then a
terminal one. -/
def stepsThree : List PollStep :=
  [{ checkTime := 6, status := 200, body := [("statementStatusUrl", Json.str "u")] },
   { checkTime := 8, status := 200, body := [] },
   { checkTime := 9, status := 200, body := [("resultSetMetaData", Json.obj [])] }]

/-- C2 counterexample: a three-iteration poll whose cached token expires
at 7 (between the first and second fetch) performs one Token Manager
lookup in total, zero refreshes, and every fetch reuses the stale bearer
token, so the lookup count differs from the iteration count. -/
theorem pollStatement_single_lookup_counterexample :
    (pollStatement (TokenState.mk (some (Json.str "tok0")) 7) 6 (RefreshEnv.mk 200 [] 0)
        (Json.str "h") 5 10 stepsThree).tokenLookups = 1 ∧
    (pollStatement (TokenState.mk (some (Json.str "tok0")) 7) 6 (RefreshEnv.mk 200 [] 0)
        (Json.str "h") 5 10 stepsThree).fetches
      = [(6, Json.str "tok0"), (8, Json.str "tok0"), (9, Json.str "tok0")] ∧
    (pollStatement (TokenState.mk (some (Json.str "tok0")) 7) 6 (RefreshEnv.mk 200 [] 0)
        (Json.str "h") 5 10 stepsThree).tokenRefreshes = 0 ∧
    ¬ (pollStatement (TokenState.mk (some (Json.str "tok0")) 7) 6 (RefreshEnv.mk 200 [] 0)
        (Json.str "h") 5 10 stepsThree).tokenLookups
      = (pollStatement (TokenState.mk (some (Json.str "tok0")) 7) 6 (RefreshEnv.mk 200 [] 0)
        (Json.str "h") 5 10 stepsThree).fetches.length := by
  refine ⟨?_, ?_, ?_, ?_⟩ <;>
  · simp [pollStatement, pollLoop, stepsThree, getAccessToken, tokenTruthy, Json.truthy,
      isTerminal, dictGet]
    norm_num

/-- Every status fetch of the poll loop carries the bearer token the loop
was entered with. -/
theorem pollLoop_fetches_bearer (tok : Json) (startTime timeoutv : ℚ)
    (steps : List PollStep) :
    ∀ f ∈ (pollLoop tok startTime timeoutv steps).2, f.2 = tok := by
  induction steps with
  | nil => intro f hf; simp [pollLoop] at hf
  | cons s rest ih =>
    intro f hf
    simp only [pollLoop] at hf
    split at hf
    · split at hf
      · simp only [List.mem_singleton] at hf
        rw [hf]
      · split at hf
        · simp only [List.mem_singleton] at hf
          rw [hf]
        · simp only [List.mem_cons] at hf
          cases hf with
          | inl hf => rw [hf]
          | inr hf => exact ih f hf
    · simp at hf

/-- C2 (amended): _poll_statement performs exactly one Token Manager
lookup per call, before its loop; every poll iteration reuses the bearer
token returned by that single lookup, so a token whose expiry passes
mid-poll is not refreshed before the next status fetch. -/
theorem pollStatement_one_lookup_per_call (st : TokenState) (now : ℚ) (env : RefreshEnv)
    (handle tok : Json) (st1 : TokenState) (k : Nat) (startTime timeoutv : ℚ)
    (steps : List PollStep)
    (h : getAccessToken st now env = (k, Except.ok (tok, st1))) :
    (pollStatement st now env handle startTime timeoutv steps).tokenLookups = 1 ∧
    ∀ f ∈ (pollStatement st now env handle startTime timeoutv steps).fetches, f.2 = tok := by
  have h2 : (getAccessToken st now env).2 = Except.ok (tok, st1) := by rw [h]
  constructor
  · rw [pollStatement]
    split <;> rfl
  · simp only [pollStatement, h2]
    exact pollLoop_fetches_bearer tok startTime timeoutv steps

/-- C2 witness: concrete run of the amended per-call lookup theorem. -/
theorem pollStatement_one_lookup_per_call_witness :
    getAccessToken (TokenState.mk (some (Json.str "tok0")) 7) 6 (RefreshEnv.mk 200 [] 0)
      = (0, Except.ok (Json.str "tok0", TokenState.mk (some (Json.str "tok0")) 7)) ∧
    ((pollStatement (TokenState.mk (some (Json.str "tok0")) 7) 6 (RefreshEnv.mk 200 [] 0)
        (Json.str "h") 5 10 stepsThree).tokenLookups = 1 ∧
    ∀ f ∈ (pollStatement (TokenState.mk (some (Json.str "tok0")) 7) 6 (RefreshEnv.mk 200 [] 0)
        (Json.str "h") 5 10 stepsThree).fetches, f.2 = Json.str "tok0") := by
  have hrun : getAccessToken (TokenState.mk (some (Json.str "tok0")) 7) 6 (RefreshEnv.mk 200 [] 0)
      = (0, Except.ok (Json.str "tok0", TokenState.mk (some (Json.str "tok0")) 7)) := by
    simp [getAccessToken, tokenTruthy, Json.truthy]
    norm_num
  exact ⟨hrun, pollStatement_one_lookup_per_call _ _ _ _ _ _ _ _ _ _ hrun⟩

/-- When every provided iteration is a pending 200 response and the clock
crosses start_time + timeout, the loop ends in the timeout error and
every status fetch it issued happened strictly before start_time +
timeout. -/
theorem pollLoop_timeout (tok : Json) (startTime timeoutv : ℚ) (steps : List PollStep)
    (hsteps : ∀ s ∈ steps, s.status = 200 ∧ isTerminal s.body = false)
    (hcross : ∃ s ∈ steps, startTime + timeoutv ≤ s.checkTime) :
    (pollLoop tok startTime timeoutv steps).1 = Except.error PyError.timeoutError ∧
    ∀ f ∈ (pollLoop tok startTime timeoutv steps).2, f.1 < startTime + timeoutv := by
  induction steps with
  | nil =>
    obtain ⟨s, hs, -⟩ := hcross
    exact absurd hs (List.not_mem_nil s)
  | cons s rest ih =>
    obtain ⟨hs200, hsterm⟩ := hsteps s (List.mem_cons_self s rest)
    by_cases hlt : s.checkTime - startTime < timeoutv
    · have hcross2 : ∃ t ∈ rest, startTime + timeoutv ≤ t.checkTime := by
        obtain ⟨t, htmem, htc⟩ := hcross
        rcases List.mem_cons.mp htmem with heq | hmem
        · rw [heq] at htc
          exact absurd htc (not_le.mpr (by linarith))
        · exact ⟨t, hmem, htc⟩
      have hrec := ih (fun t ht => hsteps t (List.mem_cons_of_mem s ht)) hcross2
      have hred : pollLoop tok startTime timeoutv (s :: rest)
          = ((pollLoop tok startTime timeoutv rest).1,
             (s.checkTime, tok) :: (pollLoop tok startTime timeoutv rest).2) := by
        simp [pollLoop, if_pos hlt, hs200, hsterm]
      rw [hred]
      refine ⟨hrec.1, ?_⟩
      intro f hf
      rcases List.mem_cons.mp hf with heq | hmem
      · rw [heq]
        linarith
      · exact hrec.2 f hmem
    · have hred : pollLoop tok startTime timeoutv (s :: rest)
          = (Except.error PyError.timeoutError, []) := by
        simp [pollLoop, if_neg hlt]
      rw [hred]
      exact ⟨rfl, by simp⟩

/-- The environment of a run whose submission POST goes out at instant 0,
whose submission response (202) arrives after a five-second round trip,
and whose poll responses at instants 6, 12 and 16 stay pending. -/
def envNoReset : ExecEnv :=
  { tokenNow := 0
    tokenEnv := RefreshEnv.mk 200 [] 0
    submitTime := 0
    submitStatus := 202
    submitBody := [("statementHandle", Json.str "h")]
    pollTokenNow := 5
    pollTokenEnv := RefreshEnv.mk 200 [] 0
    pollStart := 5
    pollSteps := [PollStep.mk 6 200 [], PollStep.mk 12 200 [], PollStep.mk 16 200 []] }

/-- C3 counterexample: with timeout 10 and the submission POST issued at
instant 0, the run raises the timeout error but still issues a status
fetch at instant 12, at which point the deadline measured from
submission start (0 + 10) has already passed: the loop deadline is
measured from the poll-phase start_time (5), not from submission
start. -/
theorem execute_fetch_after_submission_deadline :
    (execute (TokenState.mk (some (Json.str "tok")) 1000) "q" 10
        none none none none none "" "" envNoReset).outcome
      = Except.error PyError.timeoutError ∧
    (execute (TokenState.mk (some (Json.str "tok")) 1000) "q" 10
        none none none none none "" "" envNoReset).poll
      = some (PollResult.mk 1 0 (Json.str "h")
          [(6, Json.str "tok"), (12, Json.str "tok")]
          (Except.error PyError.timeoutError)) ∧
    envNoReset.submitTime + 10 ≤ 12 := by
  refine ⟨?_, ?_, ?_⟩ <;>
  · simp [execute, envNoReset, getAccessToken, tokenTruthy, Json.truthy, dictGet,
      pollStatement, pollLoop, isTerminal]
    norm_num

/-- C3 (amended): for a 202 submission whose polls stay pending while the
clock crosses the budget, execute raises the timeout error and issues no
status fetch at or after the deadline, where the deadline is the original
timeout measured from the poll-phase start_time reading (taken on entry
to _poll_statement, after the submission response arrived) and is never
reset by an intermediate poll. -/
theorem execute_timeout_bounded_by_poll_start
    (st : TokenState) (sql : String) (timeoutv : ℚ)
    (db sc wh ro : Option String) (b : Option (List (String × Json)))
    (idb isc : String) (env : ExecEnv)
    (tok : Json) (st1 : TokenState)
    (htok : (getAccessToken st env.tokenNow env.tokenEnv).2 = Except.ok (tok, st1))
    (tok2 : Json) (st2 : TokenState)
    (htok2 : (getAccessToken st1 env.pollTokenNow env.pollTokenEnv).2 = Except.ok (tok2, st2))
    (h202 : env.submitStatus = 202)
    (handle : Json)
    (hhandle : dictGet env.submitBody "statementHandle" = some handle)
    (hsteps : ∀ s ∈ env.pollSteps, s.status = 200 ∧ isTerminal s.body = false)
    (hcross : ∃ s ∈ env.pollSteps, env.pollStart + timeoutv ≤ s.checkTime) :
    (execute st sql timeoutv db sc wh ro b idb isc env).outcome
      = Except.error PyError.timeoutError ∧
    ∀ pr, (execute st sql timeoutv db sc wh ro b idb isc env).poll = some pr →
      ∀ f ∈ pr.fetches, f.1 < env.pollStart + timeoutv := by
  have hpl := pollLoop_timeout tok2 env.pollStart timeoutv env.pollSteps hsteps hcross
  have hps : pollStatement st1 env.pollTokenNow env.pollTokenEnv handle
      env.pollStart timeoutv env.pollSteps
      = { tokenLookups := 1
          tokenRefreshes := (getAccessToken st1 env.pollTokenNow env.pollTokenEnv).1
          handle := handle
          fetches := (pollLoop tok2 env.pollStart timeoutv env.pollSteps).2
          outcome := (pollLoop tok2 env.pollStart timeoutv env.pollSteps).1 } := by
    rw [pollStatement, htok2]
  have hexec : execute st sql timeoutv db sc wh ro b idb isc env
      = { submissions := 1
          payload := some (executePayload sql timeoutv db sc wh ro b idb isc)
          pollEntered := true
          poll := some (pollStatement st1 env.pollTokenNow env.pollTokenEnv handle
            env.pollStart timeoutv env.pollSteps)
          outcome := Except.error PyError.timeoutError } := by
    rw [execute, htok]
    rw [h202, hhandle]
    simp [hps, hpl.1]
  rw [hexec]
  refine ⟨rfl, ?_⟩
  intro pr hpr
  rw [Option.some.injEq] at hpr
  rw [← hpr, hps]
  exact hpl.2

/-- C3 witness: concrete run of the amended timeout-bound theorem on the
submission-at-0, poll-start-at-5 environment. -/
theorem execute_timeout_bounded_by_poll_start_witness :
    (getAccessToken (TokenState.mk (some (Json.str "tok")) 1000)
        envNoReset.tokenNow envNoReset.tokenEnv).2
      = Except.ok (Json.str "tok", TokenState.mk (some (Json.str "tok")) 1000) ∧
    (getAccessToken (TokenState.mk (some (Json.str "tok")) 1000)
        envNoReset.pollTokenNow envNoReset.pollTokenEnv).2
      = Except.ok (Json.str "tok", TokenState.mk (some (Json.str "tok")) 1000) ∧
    envNoReset.submitStatus = 202 ∧
    dictGet envNoReset.submitBody "statementHandle" = some (Json.str "h") ∧
    (∀ s ∈ envNoReset.pollSteps, s.status = 200 ∧ isTerminal s.body = false) ∧
    (∃ s ∈ envNoReset.pollSteps, envNoReset.pollStart + 10 ≤ s.checkTime) ∧
    ((execute (TokenState.mk (some (Json.str "tok")) 1000) "q" 10
        none none none none none "" "" envNoReset).outcome
      = Except.error PyError.timeoutError ∧
    ∀ pr, (execute (TokenState.mk (some (Json.str "tok")) 1000) "q" 10
        none none none none none "" "" envNoReset).poll = some pr →
      ∀ f ∈ pr.fetches, f.1 < envNoReset.pollStart + 10) := by
  have h1 : (getAccessToken (TokenState.mk (some (Json.str "tok")) 1000)
      envNoReset.tokenNow envNoReset.tokenEnv).2
      = Except.ok (Json.str "tok", TokenState.mk (some (Json.str "tok")) 1000) := by
    simp [getAccessToken, tokenTruthy, Json.truthy, envNoReset]
    try norm_num
  have h2 : (getAccessToken (TokenState.mk (some (Json.str "tok")) 1000)
      envNoReset.pollTokenNow envNoReset.pollTokenEnv).2
      = Except.ok (Json.str "tok", TokenState.mk (some (Json.str "tok")) 1000) := by
    simp [getAccessToken, tokenTruthy, Json.truthy, envNoReset]
    try norm_num
  have h3 : envNoReset.submitStatus = 202 := rfl
  have h4 : dictGet envNoReset.submitBody "statementHandle" = some (Json.str "h") := rfl
  have h5 : ∀ s ∈ envNoReset.pollSteps, s.status = 200 ∧ isTerminal s.body = false := by
    intro s hs
    simp [envNoReset] at hs
    rcases hs with rfl | rfl | rfl <;> exact ⟨rfl, rfl⟩
  have h6 : ∃ s ∈ envNoReset.pollSteps, envNoReset.pollStart + 10 ≤ s.checkTime := by
    refine ⟨PollStep.mk 16 200 [], ?_, ?_⟩
    · simp [envNoReset]
    · show (5 : ℚ) + 10 ≤ 16
      norm_num
  exact ⟨h1, h2, h3, h4, h5, h6,
    execute_timeout_bounded_by_poll_start _ "q" 10 none none none none none "" "" envNoReset
      _ _ h1 _ _ h2 h3 _ h4 h5 h6⟩

/-- The raise site guarded by the submission status check of execute. -/
def PyError.isExecError : PyError → Bool
  | PyError.execError _ => true
  | _ => false

theorem slackOf_no_execError (j : Json) (e : PyError)
    (h : slackOf j = Except.error e) : e.isExecError = false := by
  cases j <;> simp [slackOf] at h <;> rw [← h] <;> rfl

theorem pyIndex_no_execError (j : Json) (k : String) (e : PyError)
    (h : pyIndex j k = Except.error e) : e.isExecError = false := by
  cases j with
  | obj fs =>
    cases hg : dictGet fs k with
    | some v =>
      have h2 : Except.ok (ε := PyError) v = Except.error e := by
        rw [← h, pyIndex, hg]
      exact Except.noConfusion h2
    | none =>
      have h2 : Except.error (α := Json) (PyError.keyError k) = Except.error e := by
        rw [← h, pyIndex, hg]
      injection h2 with h3
      rw [← h3]
      rfl
  | null => injection h with h3; rw [← h3]; rfl
  | str s => injection h with h3; rw [← h3]; rfl
  | num q => injection h with h3; rw [← h3]; rfl
  | bool b => injection h with h3; rw [← h3]; rfl
  | arr xs => injection h with h3; rw [← h3]; rfl

theorem iterElems_no_execError (j : Json) (e : PyError)
    (h : iterElems j = Except.error e) : e.isExecError = false := by
  cases j <;> simp [iterElems] at h <;> rw [← h] <;> rfl

theorem colDescriptor_no_execError (col : Json) (e : PyError)
    (h : colDescriptor col = Except.error e) : e.isExecError = false := by
  rw [colDescriptor] at h
  cases hn : pyIndex col "name" with
  | error e1 =>
    rw [hn] at h
    have h2 : Except.error (α := Column) e1 = Except.error e := h
    injection h2 with h3
    rw [← h3]
    exact pyIndex_no_execError col "name" e1 hn
  | ok n =>
    rw [hn] at h
    cases ht : pyIndex col "type" with
    | error e2 =>
      rw [ht] at h
      have h2 : Except.error (α := Column) e2 = Except.error e := h
      injection h2 with h3
      rw [← h3]
      exact pyIndex_no_execError col "type" e2 ht
    | ok t =>
      rw [ht] at h
      exact Except.noConfusion h

theorem colsOf_no_execError (cols : List Json) (e : PyError)
    (h : colsOf cols = Except.error e) : e.isExecError = false := by
  induction cols with
  | nil => exact Except.noConfusion h
  | cons col rest ih =>
    rw [colsOf] at h
    cases hc : colDescriptor col with
    | error e1 =>
      rw [hc] at h
      have h2 : Except.error (α := List Column) e1 = Except.error e := h
      injection h2 with h3
      rw [← h3]
      exact colDescriptor_no_execError col e1 hc
    | ok c =>
      rw [hc] at h
      cases hr : colsOf rest with
      | error e2 =>
        rw [hr] at h
        have h2 : Except.error (α := List Column) e2 = Except.error e := h
        injection h2 with h3
        rw [h3] at hr
        exact ih hr
      | ok cs =>
        rw [hr] at h
        exact Except.noConfusion h

theorem colsFromRowType_no_execError (rt : Json) (e : PyError)
    (h : colsFromRowType rt = Except.error e) : e.isExecError = false := by
  rw [colsFromRowType] at h
  cases hit : iterElems rt with
  | error e1 =>
    rw [hit] at h
    have h2 : Except.error (α := List Column) e1 = Except.error e := h
    injection h2 with h3
    rw [h3] at hit
    exact iterElems_no_execError rt e hit
  | ok elems =>
    rw [hit] at h
    exact colsOf_no_execError elems e h

theorem formatResult_no_execError (r : List (String × Json)) (e : PyError)
    (h : formatResult r = Except.error e) : e.isExecError = false := by
  unfold formatResult at h
  split at h
  · exact Except.noConfusion h
  · split at h
    · split at h
      · rename_i e1 heq
        injection h with h3
        rw [h3] at heq
        split at heq
        · exact Except.noConfusion heq
        · exact colsFromRowType_no_execError _ e heq
      · exact Except.noConfusion h
    · injection h with h3
      rw [← h3]
      rfl

theorem getAccessToken_no_execError (st : TokenState) (now : ℚ) (env : RefreshEnv)
    (e : PyError) (h : (getAccessToken st now env).2 = Except.error e) :
    e.isExecError = false := by
  rw [getAccessToken] at h
  split at h
  · exact Except.noConfusion h
  · revert h
    by_cases hs : env.status ≠ 200
    · rw [if_pos hs]
      intro h
      have h2 : Except.error (α := Json × TokenState) (PyError.authError env.status)
          = Except.error e := h
      injection h2 with h3
      rw [← h3]
      rfl
    · rw [if_neg hs]
      cases hg : dictGet env.body "access_token" with
      | none =>
        intro h
        have h2 : Except.error (α := Json × TokenState) (PyError.keyError "access_token")
            = Except.error e := h
        injection h2 with h3
        rw [← h3]
        rfl
      | some tokv =>
        cases hsl : slackOf ((dictGet env.body "expires_in").getD (Json.num 600)) with
        | error e1 =>
          intro h
          have h2 : Except.error (α := Json × TokenState) e1 = Except.error e := h
          injection h2 with h3
          rw [h3] at hsl
          exact slackOf_no_execError _ e hsl
        | ok slack => intro h; exact Except.noConfusion h

theorem pollLoop_no_execError (tok : Json) (startTime timeoutv : ℚ)
    (steps : List PollStep) (e : PyError)
    (h : (pollLoop tok startTime timeoutv steps).1 = Except.error e) :
    e.isExecError = false := by
  induction steps with
  | nil =>
    have h2 : Except.error (α := List (String × Json)) PyError.modelFuel
        = Except.error e := h
    injection h2 with h3
    rw [← h3]
    rfl
  | cons s rest ih =>
    rw [pollLoop] at h
    split at h
    · split at h
      · have h2 : Except.error (α := List (String × Json)) (PyError.pollStatusError s.status)
            = Except.error e := h
        injection h2 with h3
        rw [← h3]
        rfl
      · split at h
        · exact Except.noConfusion h
        · exact ih h
    · have h2 : Except.error (α := List (String × Json)) PyError.timeoutError
          = Except.error e := h
      injection h2 with h3
      rw [← h3]
      rfl

theorem pollStatement_no_execError (st : TokenState) (now : ℚ) (env : RefreshEnv)
    (handle : Json) (startTime timeoutv : ℚ) (steps : List PollStep) (e : PyError)
    (h : (pollStatement st now env handle startTime timeoutv steps).outcome
      = Except.error e) :
    e.isExecError = false := by
  rw [pollStatement] at h
  revert h
  cases hg : (getAccessToken st now env).2 with
  | error e1 =>
    intro h
    have h2 : Except.error (α := List (String × Json)) e1 = Except.error e := h
    injection h2 with h3
    rw [h3] at hg
    exact getAccessToken_no_execError st now env e hg
  | ok p =>
    obtain ⟨tok, st1⟩ := p
    intro h
    exact pollLoop_no_execError tok startTime timeoutv steps e h

theorem execute_eq_of_200 (st : TokenState) (sql : String) (timeoutv : ℚ)
    (db sc wh ro : Option String) (b : Option (List (String × Json)))
    (idb isc : String) (env : ExecEnv) (tok : Json) (st1 : TokenState)
    (htok : (getAccessToken st env.tokenNow env.tokenEnv).2 = Except.ok (tok, st1))
    (h200 : env.submitStatus = 200) :
    execute st sql timeoutv db sc wh ro b idb isc env
      = { submissions := 1
          payload := some (executePayload sql timeoutv db sc wh ro b idb isc)
          pollEntered := false
          poll := none
          outcome := formatResult env.submitBody } := by
  rw [execute, htok, h200]
  simp

theorem execute_eq_of_bad_status (st : TokenState) (sql : String) (timeoutv : ℚ)
    (db sc wh ro : Option String) (b : Option (List (String × Json)))
    (idb isc : String) (env : ExecEnv) (tok : Json) (st1 : TokenState)
    (htok : (getAccessToken st env.tokenNow env.tokenEnv).2 = Except.ok (tok, st1))
    (hbad : env.submitStatus ≠ 200 ∧ env.submitStatus ≠ 202) :
    execute st sql timeoutv db sc wh ro b idb isc env
      = { submissions := 1
          payload := some (executePayload sql timeoutv db sc wh ro b idb isc)
          pollEntered := false
          poll := none
          outcome := Except.error (PyError.execError env.submitStatus) } := by
  rw [execute, htok]
  simp [hbad.1, hbad.2]

theorem execute_eq_of_202 (st : TokenState) (sql : String) (timeoutv : ℚ)
    (db sc wh ro : Option String) (b : Option (List (String × Json)))
    (idb isc : String) (env : ExecEnv) (tok : Json) (st1 : TokenState)
    (htok : (getAccessToken st env.tokenNow env.tokenEnv).2 = Except.ok (tok, st1))
    (h202 : env.submitStatus = 202) (handle : Json)
    (hhandle : dictGet env.submitBody "statementHandle" = some handle) :
    execute st sql timeoutv db sc wh ro b idb isc env
      = { submissions := 1
          payload := some (executePayload sql timeoutv db sc wh ro b idb isc)
          pollEntered := true
          poll := some (pollStatement st1 env.pollTokenNow env.pollTokenEnv handle
            env.pollStart timeoutv env.pollSteps)
          outcome :=
            match (pollStatement st1 env.pollTokenNow env.pollTokenEnv handle
              env.pollStart timeoutv env.pollSteps).outcome with
            | Except.error e => Except.error e
            | Except.ok body => formatResult body } := by
  rw [execute, htok, h202, hhandle]
  cases hpo : (pollStatement st1 env.pollTokenNow env.pollTokenEnv handle
    env.pollStart timeoutv env.pollSteps).outcome <;> simp [hpo]

theorem execute_eq_of_202_nohandle (st : TokenState) (sql : String) (timeoutv : ℚ)
    (db sc wh ro : Option String) (b : Option (List (String × Json)))
    (idb isc : String) (env : ExecEnv) (tok : Json) (st1 : TokenState)
    (htok : (getAccessToken st env.tokenNow env.tokenEnv).2 = Except.ok (tok, st1))
    (h202 : env.submitStatus = 202)
    (hhandle : dictGet env.submitBody "statementHandle" = none) :
    execute st sql timeoutv db sc wh ro b idb isc env
      = { submissions := 1
          payload := some (executePayload sql timeoutv db sc wh ro b idb isc)
          pollEntered := false
          poll := none
          outcome := Except.error (PyError.keyError "statementHandle") } := by
  rw [execute, htok, h202, hhandle]
  simp

/-- C6: with a successful token lookup, a 200 submission response is
normalized and returned immediately and the polling loop is never
entered; a 202 response polls, keyed by the statementHandle of the
submission body. -/
theorem execute_short_circuit (st : TokenState) (sql : String) (timeoutv : ℚ)
    (db sc wh ro : Option String) (b : Option (List (String × Json)))
    (idb isc : String) (env : ExecEnv) (tok : Json) (st1 : TokenState)
    (htok : (getAccessToken st env.tokenNow env.tokenEnv).2 = Except.ok (tok, st1)) :
    (env.submitStatus = 200 →
      execute st sql timeoutv db sc wh ro b idb isc env
        = { submissions := 1
            payload := some (executePayload sql timeoutv db sc wh ro b idb isc)
            pollEntered := false
            poll := none
            outcome := formatResult env.submitBody }) ∧
    (env.submitStatus = 202 →
      ∀ handle, dictGet env.submitBody "statementHandle" = some handle →
        (execute st sql timeoutv db sc wh ro b idb isc env).pollEntered = true ∧
        (execute st sql timeoutv db sc wh ro b idb isc env).poll
          = some (pollStatement st1 env.pollTokenNow env.pollTokenEnv handle
              env.pollStart timeoutv env.pollSteps)) := by
  constructor
  · intro h200
    exact execute_eq_of_200 st sql timeoutv db sc wh ro b idb isc env tok st1 htok h200
  · intro h202 handle hhandle
    rw [execute_eq_of_202 st sql timeoutv db sc wh ro b idb isc env tok st1 htok
      h202 handle hhandle]
    exact ⟨rfl, rfl⟩

/-- Environment of a submission answered 200 immediately with an error
body, never polled. -/
def env200 : ExecEnv :=
  { tokenNow := 0
    tokenEnv := RefreshEnv.mk 200 [] 0
    submitTime := 0
    submitStatus := 200
    submitBody := [("message", Json.str "m")]
    pollTokenNow := 1
    pollTokenEnv := RefreshEnv.mk 200 [] 0
    pollStart := 1
    pollSteps := [] }

/-- C6 witness: concrete 200 submission short-circuits to the normalized
body without polling. -/
theorem execute_short_circuit_witness :
    (getAccessToken (TokenState.mk (some (Json.str "t")) 50)
        env200.tokenNow env200.tokenEnv).2
      = Except.ok (Json.str "t", TokenState.mk (some (Json.str "t")) 50) ∧
    ((env200.submitStatus = 200 →
      execute (TokenState.mk (some (Json.str "t")) 50) "q" 60
          none none none none none "" "" env200
        = { submissions := 1
            payload := some (executePayload "q" 60 none none none none none "" "")
            pollEntered := false
            poll := none
            outcome := formatResult env200.submitBody }) ∧
    (env200.submitStatus = 202 →
      ∀ handle, dictGet env200.submitBody "statementHandle" = some handle →
        (execute (TokenState.mk (some (Json.str "t")) 50) "q" 60
            none none none none none "" "" env200).pollEntered = true ∧
        (execute (TokenState.mk (some (Json.str "t")) 50) "q" 60
            none none none none none "" "" env200).poll
          = some (pollStatement (TokenState.mk (some (Json.str "t")) 50)
              env200.pollTokenNow env200.pollTokenEnv handle
              env200.pollStart 60 env200.pollSteps))) := by
  have hrun : (getAccessToken (TokenState.mk (some (Json.str "t")) 50)
      env200.tokenNow env200.tokenEnv).2
      = Except.ok (Json.str "t", TokenState.mk (some (Json.str "t")) 50) := by
    simp [getAccessToken, tokenTruthy, Json.truthy, env200]
    try norm_num
  exact ⟨hrun, execute_short_circuit _ "q" 60 none none none none none "" "" env200
    _ _ hrun⟩

/-- C9: with a successful token lookup, exactly one submission POST is
made; the submission error is raised if and only if the response status
is neither 200 nor 202, and it surfaces at once with no polling and no
retry; on a 200 or 202 status no submission error can be raised by any
later stage. -/
theorem execute_submission_error_iff (st : TokenState) (sql : String) (timeoutv : ℚ)
    (db sc wh ro : Option String) (b : Option (List (String × Json)))
    (idb isc : String) (env : ExecEnv) (tok : Json) (st1 : TokenState)
    (htok : (getAccessToken st env.tokenNow env.tokenEnv).2 = Except.ok (tok, st1)) :
    (execute st sql timeoutv db sc wh ro b idb isc env).submissions = 1 ∧
    (env.submitStatus ≠ 200 ∧ env.submitStatus ≠ 202 →
      execute st sql timeoutv db sc wh ro b idb isc env
        = { submissions := 1
            payload := some (executePayload sql timeoutv db sc wh ro b idb isc)
            pollEntered := false
            poll := none
            outcome := Except.error (PyError.execError env.submitStatus) }) ∧
    (env.submitStatus = 200 ∨ env.submitStatus = 202 →
      ∀ s, (execute st sql timeoutv db sc wh ro b idb isc env).outcome
        ≠ Except.error (PyError.execError s)) := by
  refine ⟨?_, ?_, ?_⟩
  · by_cases h200 : env.submitStatus = 200
    · rw [execute_eq_of_200 st sql timeoutv db sc wh ro b idb isc env tok st1 htok h200]
    · by_cases h202 : env.submitStatus = 202
      · cases hh : dictGet env.submitBody "statementHandle" with
        | none =>
          rw [execute_eq_of_202_nohandle st sql timeoutv db sc wh ro b idb isc env
            tok st1 htok h202 hh]
        | some handle =>
          rw [execute_eq_of_202 st sql timeoutv db sc wh ro b idb isc env
            tok st1 htok h202 handle hh]
      · rw [execute_eq_of_bad_status st sql timeoutv db sc wh ro b idb isc env
          tok st1 htok ⟨h200, h202⟩]
  · intro hbad
    exact execute_eq_of_bad_status st sql timeoutv db sc wh ro b idb isc env
      tok st1 htok hbad
  · intro hgood s hcontra
    rcases hgood with h200 | h202
    · rw [execute_eq_of_200 st sql timeoutv db sc wh ro b idb isc env
        tok st1 htok h200] at hcontra
      have hkind := formatResult_no_execError env.submitBody _ hcontra
      simp [PyError.isExecError] at hkind
    · cases hh : dictGet env.submitBody "statementHandle" with
      | none =>
        rw [execute_eq_of_202_nohandle st sql timeoutv db sc wh ro b idb isc env
          tok st1 htok h202 hh] at hcontra
        have h2 : Except.error (α := FormattedResult) (PyError.keyError "statementHandle")
            = Except.error (PyError.execError s) := hcontra
        injection h2 with h3
        exact PyError.noConfusion h3
      | some handle =>
        rw [execute_eq_of_202 st sql timeoutv db sc wh ro b idb isc env
          tok st1 htok h202 handle hh] at hcontra
        revert hcontra
        cases hpo : (pollStatement st1 env.pollTokenNow env.pollTokenEnv handle
          env.pollStart timeoutv env.pollSteps).outcome with
        | error e1 =>
          intro hcontra
          have h2 : Except.error (α := FormattedResult) e1
              = Except.error (PyError.execError s) := hcontra
          injection h2 with h3
          rw [h3] at hpo
          have hkind := pollStatement_no_execError st1 env.pollTokenNow env.pollTokenEnv
            handle env.pollStart timeoutv env.pollSteps _ hpo
          simp [PyError.isExecError] at hkind
        | ok body =>
          intro hcontra
          have hkind := formatResult_no_execError body _ hcontra
          simp [PyError.isExecError] at hkind

/-- Environment of a submission rejected with HTTP 500. -/
def env500 : ExecEnv :=
  { tokenNow := 0
    tokenEnv := RefreshEnv.mk 200 [] 0
    submitTime := 0
    submitStatus := 500
    submitBody := []
    pollTokenNow := 1
    pollTokenEnv := RefreshEnv.mk 200 [] 0
    pollStart := 1
    pollSteps := [] }

/-- C9 witness: a concrete 500 submission raises the execution error
immediately, on its single POST, without polling. -/
theorem execute_submission_error_iff_witness :
    (getAccessToken (TokenState.mk (some (Json.str "t")) 50)
        env500.tokenNow env500.tokenEnv).2
      = Except.ok (Json.str "t", TokenState.mk (some (Json.str "t")) 50) ∧
    ((execute (TokenState.mk (some (Json.str "t")) 50) "q" 60
        none none none none none "" "" env500).submissions = 1 ∧
    (env500.submitStatus ≠ 200 ∧ env500.submitStatus ≠ 202 →
      execute (TokenState.mk (some (Json.str "t")) 50) "q" 60
          none none none none none "" "" env500
        = { submissions := 1
            payload := some (executePayload "q" 60 none none none none none "" "")
            pollEntered := false
            poll := none
            outcome := Except.error (PyError.execError env500.submitStatus) }) ∧
    (env500.submitStatus = 200 ∨ env500.submitStatus = 202 →
      ∀ s, (execute (TokenState.mk (some (Json.str "t")) 50) "q" 60
          none none none none none "" "" env500).outcome
        ≠ Except.error (PyError.execError s))) := by
  have hrun : (getAccessToken (TokenState.mk (some (Json.str "t")) 50)
      env500.tokenNow env500.tokenEnv).2
      = Except.ok (Json.str "t", TokenState.mk (some (Json.str "t")) 50) := by
    simp [getAccessToken, tokenTruthy, Json.truthy, env500]
    try norm_num
  exact ⟨hrun, execute_submission_error_iff _ "q" 60 none none none none none "" ""
    env500 _ _ hrun⟩

/-- C10: every execute_async payload fixes timeout to 0 and the async
flag to true and never carries a bindings field, even when the caller
passed bindings through kwargs; execute, by contrast, forwards a nonempty
bindings dict into its payload. -/
theorem executeAsyncPayload_drops_bindings (sql : String) (timeoutv : ℚ)
    (db sc wh ro : Option String) (b : Option (List (String × Json)))
    (idb isc : String) :
    dictGet (executeAsyncPayload sql db sc wh ro b idb isc) "timeout"
      = some (Json.num 0) ∧
    dictGet (executeAsyncPayload sql db sc wh ro b idb isc) "async"
      = some (Json.bool true) ∧
    dictGet (executeAsyncPayload sql db sc wh ro b idb isc) "bindings" = none ∧
    (∀ bl, b = some bl → bl ≠ [] →
      dictGet (executePayload sql timeoutv db sc wh ro b idb isc) "bindings"
        = some (Json.obj bl)) := by
  refine ⟨?_, ?_, ?_, ?_⟩
  · simp only [executeAsyncPayload, optEntry]
    split_ifs <;> simp [dictGet]
  · simp only [executeAsyncPayload, optEntry]
    split_ifs <;> simp [dictGet]
  · simp only [executeAsyncPayload, optEntry]
    split_ifs <;> simp [dictGet]
  · intro bl hb hne
    rw [hb]
    simp only [executePayload, optEntry]
    split_ifs <;> simp_all [dictGet, List.isEmpty_eq_true]

/-- C10 witness: concrete payloads with one binding supplied by the
caller. -/
theorem executeAsyncPayload_drops_bindings_witness :
    dictGet (executeAsyncPayload "q" none none none none
        (some [("p", Json.num 1)]) "" "") "timeout" = some (Json.num 0) ∧
    dictGet (executeAsyncPayload "q" none none none none
        (some [("p", Json.num 1)]) "" "") "async" = some (Json.bool true) ∧
    dictGet (executeAsyncPayload "q" none none none none
        (some [("p", Json.num 1)]) "" "") "bindings" = none ∧
    dictGet (executePayload "q" 60 none none none none
        (some [("p", Json.num 1)]) "" "") "bindings"
      = some (Json.obj [("p", Json.num 1)]) := by
  have hall := executeAsyncPayload_drops_bindings "q" 60 none none none none
    (some [("p", Json.num 1)]) "" ""
  exact ⟨hall.1, hall.2.1, hall.2.2.1,
    hall.2.2.2 [("p", Json.num 1)] rfl (by simp)⟩
